import Mathlib

/-!
Verification of the prostore rest-client library (src/index.js).

The embedding models:
* the credential generator (nonce + SHA-256 token headers),
* the request client (URL construction, request templates, verb dispatch),
* the JavaScript property-lookup semantics relevant to the own-property
  `url` string shadowing the prototype method `url`.

The repository file src/utils.js (providing utils.randomString and
utils.sha256) is not present under src/; those two primitives are modelled
from the spec, as marked on their definitions.  Everything else is a direct
translation of src/index.js.
-/

namespace ProStore

/-! ## String helpers translated from the regular expressions in src/index.js -/

/-- Models options.url.replace of the trailing-slashes regex with the empty
string (src/index.js line 32): removes every trailing slash character. -/
def stripTrailingSlashes (s : String) : String :=
  String.mk ((s.data.reverse.dropWhile (fun c => c = '/')).reverse)

/-- Models endpoint.replace of the single anchored leading-slash regex with
the empty string (src/index.js line 91): removes at most one leading slash. -/
def dropOneLeadingSlash (s : String) : String :=
  match s.data with
  | '/' :: rest => String.mk rest
  | _ => s

/-! ## SHA-256 over Nat words (32-bit arithmetic via explicit mod 2^32).

Modelled from the spec: utils.sha256 lives in src/utils.js which is not under
src/; the spec prescribes a one-way cryptographic hash with 256-bit digest
(SHA-256) of the UTF-8 bytes of the input, rendered as lowercase hexadecimal. -/

def mask32 : Nat := 4294967296

def rotr (n x : Nat) : Nat :=
  ((x >>> n) ||| (x <<< (32 - n))) % mask32

def shaCh (x y z : Nat) : Nat :=
  (x &&& y) ^^^ ((x ^^^ 4294967295) &&& z)

def shaMaj (x y z : Nat) : Nat :=
  (x &&& y) ^^^ (x &&& z) ^^^ (y &&& z)

def bigSigma0 (x : Nat) : Nat := (rotr 2 x) ^^^ (rotr 13 x) ^^^ (rotr 22 x)

def bigSigma1 (x : Nat) : Nat := (rotr 6 x) ^^^ (rotr 11 x) ^^^ (rotr 25 x)

def smallSigma0 (x : Nat) : Nat := (rotr 7 x) ^^^ (rotr 18 x) ^^^ (x >>> 3)

def smallSigma1 (x : Nat) : Nat := (rotr 17 x) ^^^ (rotr 19 x) ^^^ (x >>> 10)

/-- The 64 SHA-256 round constants (decimal). -/
def shaK : List Nat :=
  [1116352408, 1899447441, 3049323471, 3921009573,
   961987163, 1508970993, 2453635748, 2870763221,
   3624381080, 310598401, 607225278, 1426881987,
   1925078388, 2162078206, 2614888103, 3248222580,
   3835390401, 4022224774, 264347078, 604807628,
   770255983, 1249150122, 1555081692, 1996064986,
   2554220882, 2821834349, 2952996808, 3210313671,
   3336571891, 3584528711, 113926993, 338241895,
   666307205, 773529912, 1294757372, 1396182291,
   1695183700, 1986661051, 2177026350, 2456956037,
   2730485921, 2820302411, 3259730800, 3345764771,
   3516065817, 3600352804, 4094571909, 275423344,
   430227734, 506948616, 659060556, 883997877,
   958139571, 1322822218, 1537002063, 1747873779,
   1955562222, 2024104815, 2227730452, 2361852424,
   2428436474, 2756734187, 3204031479, 3329325298]

/-- Working state of the compression function: eight 32-bit words. -/
structure ShaState where
  a : Nat
  b : Nat
  c : Nat
  d : Nat
  e : Nat
  f : Nat
  g : Nat
  h : Nat
deriving Repr, DecidableEq

/-- Initial hash value of SHA-256 (decimal). -/
def shaInit : ShaState :=
  { a := 1779033703, b := 3144134277, c := 1013904242, d := 2773480762,
    e := 1359893119, f := 2600822924, g := 528734635, h := 1541459225 }

/-- One round of the SHA-256 compression function. -/
def shaRound (st : ShaState) (kt wt : Nat) : ShaState :=
  let t1 := (st.h + bigSigma1 st.e + shaCh st.e st.f st.g + kt + wt) % mask32
  let t2 := (bigSigma0 st.a + shaMaj st.a st.b st.c) % mask32
  { a := (t1 + t2) % mask32, b := st.a, c := st.b, d := st.c,
    e := (st.d + t1) % mask32, f := st.e, g := st.f, h := st.g }

/-- One message-schedule extension step; acc holds the words produced so far,
most recent first. -/
def shaNextW (acc : List Nat) : Nat :=
  (smallSigma1 (acc.getD 1 0) + acc.getD 6 0
    + smallSigma0 (acc.getD 14 0) + acc.getD 15 0) % mask32

/-- Run n extension steps, accumulating in reverse order. -/
def shaExtend (acc : List Nat) : Nat → List Nat
  | 0 => acc
  | n + 1 => shaExtend (shaNextW acc :: acc) n

/-- Full 64-word message schedule from the 16 words of one block. -/
def shaSchedule (w16 : List Nat) : List Nat :=
  (shaExtend w16.reverse 48).reverse

/-- Compress one 512-bit block (given as 16 big-endian 32-bit words). -/
def shaCompress (st : ShaState) (w16 : List Nat) : ShaState :=
  let fin := ((shaK.zip (shaSchedule w16)).foldl
    (fun s p => shaRound s p.1 p.2) st)
  { a := (st.a + fin.a) % mask32, b := (st.b + fin.b) % mask32,
    c := (st.c + fin.c) % mask32, d := (st.d + fin.d) % mask32,
    e := (st.e + fin.e) % mask32, f := (st.f + fin.f) % mask32,
    g := (st.g + fin.g) % mask32, h := (st.h + fin.h) % mask32 }

/-- UTF-8 encoding of a single code point, as a list of byte values. -/
def utf8EncodeCharNat (n : Nat) : List Nat :=
  if n < 0x80 then [n]
  else if n < 0x800 then
    [0xC0 ||| (n >>> 6), 0x80 ||| (n &&& 0x3F)]
  else if n < 0x10000 then
    [0xE0 ||| (n >>> 12), 0x80 ||| ((n >>> 6) &&& 0x3F), 0x80 ||| (n &&& 0x3F)]
  else
    [0xF0 ||| (n >>> 18), 0x80 ||| ((n >>> 12) &&& 0x3F),
     0x80 ||| ((n >>> 6) &&& 0x3F), 0x80 ||| (n &&& 0x3F)]

/-- UTF-8 bytes of a string. -/
def strToBytes (s : String) : List Nat :=
  s.data.foldr (fun c acc => utf8EncodeCharNat c.toNat ++ acc) []

/-- The 8-byte big-endian encoding of the bit length. -/
def lenBytes (bitLen : Nat) : List Nat :=
  [(bitLen >>> 56) % 256, (bitLen >>> 48) % 256, (bitLen >>> 40) % 256,
   (bitLen >>> 32) % 256, (bitLen >>> 24) % 256, (bitLen >>> 16) % 256,
   (bitLen >>> 8) % 256, bitLen % 256]

/-- SHA-256 padding: append 0x80, zero bytes to 56 mod 64, then the 64-bit
big-endian message bit length. -/
def padMessage (msg : List Nat) : List Nat :=
  let zeros := (64 - ((msg.length + 9) % 64)) % 64
  msg ++ [0x80] ++ List.replicate zeros 0 ++ lenBytes (msg.length * 8)

/-- Group bytes into big-endian 32-bit words. -/
def bytesToWords : List Nat → List Nat
  | b0 :: b1 :: b2 :: b3 :: rest =>
    (b0 * 16777216 + b1 * 65536 + b2 * 256 + b3) :: bytesToWords rest
  | _ => []

/-- Split a word list into blocks of 16 words; structural recursion on a
fuel argument so that the definition reduces inside the kernel. -/
def chunks16Fuel : Nat → List Nat → List (List Nat)
  | 0, _ => []
  | _, [] => []
  | fuel + 1, l => l.take 16 :: chunks16Fuel fuel (l.drop 16)

/-- Split a word list into blocks of 16 words. -/
def chunks16 (l : List Nat) : List (List Nat) :=
  chunks16Fuel l.length l

/-- Lowercase hexadecimal digit table. -/
def hexTable : List Char := "0123456789abcdef".data

def hexDigit (n : Nat) : Char := hexTable.getD n '0'

/-- Fixed-width (8 hex digits) lowercase rendering of one 32-bit word. -/
def word32hex (w : Nat) : String :=
  String.mk ([28, 24, 20, 16, 12, 8, 4, 0].map
    (fun k => hexDigit ((w >>> k) % 16)))

/-- SHA-256 digest of the UTF-8 bytes of a string, rendered as lowercase
hexadecimal.  Modelled from the spec (utils.sha256 of the absent
src/utils.js). -/
def sha256hex (s : String) : String :=
  let st := ((chunks16 (bytesToWords (padMessage (strToBytes s)))).foldl
    shaCompress shaInit)
  word32hex st.a ++ word32hex st.b ++ word32hex st.c ++ word32hex st.d
    ++ word32hex st.e ++ word32hex st.f ++ word32hex st.g ++ word32hex st.h

/-! ## Credential generator -/

/-- Modelled from the spec: utils.randomString lives in src/utils.js which is
not under src/; the spec prescribes a fixed alphabet of uppercase letters,
lowercase letters and digits. -/
def ALPHABET : List Char :=
  "ABCDEFGHIJKLMNOPQRSTUVWXYZabcdefghijklmnopqrstuvwxyz0123456789".data

/-- Modelled from the spec: utils.randomString lives in src/utils.js which is
not under src/; the spec prescribes a string of exactly len characters, each
independently drawn from the fixed alphabet by the random source.  The random
source is modelled as an explicit entropy stream of indices. -/
def randomString (len : Nat) (entropy : Nat → Nat) : String :=
  String.mk ((List.range len).map
    (fun i => ALPHABET.getD (entropy i % ALPHABET.length) 'A'))

/-! ## The ApiClient (src/index.js) -/

/-- Constructor options (src/index.js lines 29-35). -/
structure ClientOptions where
  url : String
  userId : String
  privateToken : String
deriving Repr, DecidableEq

/-- The own (instance) properties installed by the ApiClient constructor.
Note that the constructor stores the trailing-slash-stripped url string in
the own property named url. -/
structure ApiClient where
  url : String
  userId : String
  privateToken : String
deriving Repr, DecidableEq

/-- The ApiClient constructor (src/index.js lines 29-35). -/
def ApiClient.ofOptions (o : ClientOptions) : ApiClient :=
  { url := stripTrailingSlashes o.url
    userId := o.userId
    privateToken := o.privateToken }

/-- The baseUrl getter on the prototype (src/index.js lines 49-53): reads the
own url string property and appends the api segment. -/
def ApiClient.baseUrl (c : ApiClient) : String :=
  c.url ++ "/api"

/-- The url method installed on ApiClient.prototype (src/index.js lines
90-92): the endpoint-URL builder. -/
def ApiClient.urlMethod (c : ApiClient) (endpoint : String) : String :=
  c.baseUrl ++ "/" ++ dropOneLeadingSlash endpoint

/-- The headers getter on the prototype (src/index.js lines 71-81), with the
random source passed explicitly.  The result is the JavaScript object
literal, kept as an ordered field list so field names and count are part of
the model. -/
def ApiClient.headersList (c : ApiClient) (entropy : Nat → Nat) :
    List (String × String) :=
  let nonce := randomString 32 entropy
  let token := sha256hex (nonce ++ ":" ++ c.privateToken)
  [("ProStore-Auth-UserId", c.userId),
   ("ProStore-Auth-Nonce", nonce),
   ("ProStore-Auth-Token", token)]

/-- Field read on a header object, JavaScript style. -/
def hdrLookup (hs : List (String × String)) (k : String) : Option String :=
  (hs.find? (fun p => p.1 == k)).map (fun p => p.2)

/-! ## JavaScript property semantics for the name url

The constructor executes an assignment to the own property url of the
instance, while ApiClient.prototype.url is a function.  A JavaScript
property read consults own properties before the prototype chain, so the
own string value shadows the prototype method. -/

/-- A JavaScript value reachable under the property name url: either the
string installed by the constructor or the prototype method. -/
inductive UrlPropValue where
  | stringValue (s : String)
  | methodValue (f : String → String)

/-- Own-property table of an ApiClient instance, restricted to the name url:
the constructor always installs the string. -/
def urlPropOwn (c : ApiClient) : Option UrlPropValue :=
  some (.stringValue c.url)

/-- Prototype table, restricted to the name url: the endpoint-URL builder. -/
def urlPropProto (c : ApiClient) : UrlPropValue :=
  .methodValue c.urlMethod

/-- JavaScript property lookup for this.url: own properties first, then the
prototype. -/
def urlProp (c : ApiClient) : UrlPropValue :=
  (urlPropOwn c).getD (urlPropProto c)

/-- A JavaScript runtime error raised by the modelled code. -/
inductive JsError where
  | typeError (msg : String)
deriving Repr, DecidableEq

/-- Evaluation of the call expression this.url(endpoint): calling a
non-function value raises a TypeError. -/
def callUrlProp (c : ApiClient) (endpoint : String) : Except JsError String :=
  match urlProp c with
  | .stringValue _ => .error (.typeError "this.url is not a function")
  | .methodValue f => .ok (f endpoint)

/-! ## request templates and verb dispatch -/

/-- The defaults object handed to the transport factory by
ApiClient.prototype.request (src/index.js lines 122-129).  none models the
JavaScript value undefined. -/
structure RequestTemplate where
  method : Option String
  url : Option String
  headers : List (String × String)
  json : Bool
deriving Repr, DecidableEq

/-- ApiClient.prototype.request (src/index.js lines 122-129).  The object
literal evaluates method ? method.toLowerCase() : undefined, then
endpoint ? this.url(endpoint) : undefined - the latter evaluates this.url
via the property lookup above, so for a truthy (non-empty) endpoint the
whole call raises a TypeError.  An empty string and undefined are falsy. -/
def ApiClient.requestMethod (c : ApiClient) (method : Option String)
    (endpoint : String) (entropy : Nat → Nat) :
    Except JsError RequestTemplate :=
  let m := method.bind (fun s => if s = "" then none else some s.toLower)
  match (if endpoint = "" then .ok none
         else (callUrlProp c endpoint).map some : Except JsError (Option String)) with
  | .error e => .error e
  | .ok u =>
    .ok { method := m, url := u, headers := c.headersList entropy, json := true }

/-- Outcome of the transport call: either a transport-level failure carrying
the error value err, or a completed round trip with a status code and a
parsed body. -/
inductive TransportResult (ε β : Type) where
  | failed (err : ε)
  | completed (statusCode : Nat) (body : β)
deriving Repr, DecidableEq

/-- What an error handed to the user callback is: either the transport error
value passed through unmodified, or the Error object freshly constructed
from the status code. -/
inductive CbErr (ε : Type) where
  | transport (err : ε)
  | serverError (message : String)
deriving Repr, DecidableEq

/-- A single invocation of the user callback: cb(err) with one argument, or
cb(null, data). -/
inductive CallbackInvocation (ε β : Type) where
  | withErr (e : CbErr ε)
  | withData (data : β)
deriving Repr, DecidableEq

/-- The completion handler installed by the verb methods (src/index.js lines
158-164): if (err) return cb(err); if (res.statusCode >= 400) return
cb(new Error("Server returned " + res.statusCode)); cb(null, data). -/
def handleResponse {ε β : Type} (out : TransportResult ε β) :
    CallbackInvocation ε β :=
  match out with
  | .failed e => .withErr (.transport e)
  | .completed status body =>
    if 400 ≤ status then
      .withErr (.serverError ("Server returned " ++ toString status))
    else
      .withData body

/-- The second positional argument of a verb method: an options object or a
function (the callback, of abstract type γ). -/
inductive JsArg (γ : Type) (ω : Type) where
  | obj (o : ω)
  | func (f : γ)
deriving Repr, DecidableEq

/-- The overload resolution at the top of each verb method (src/index.js
lines 153-156): if typeof options is function then cb := options and
options := the empty object. -/
def resolveArgs {γ ω : Type} (emptyObj : ω) (options : JsArg γ ω)
    (cb : Option γ) : ω × Option γ :=
  match options with
  | .func f => (emptyObj, some f)
  | .obj o => (o, cb)

/-- The observable behaviour of one verb-method call that did not raise: the
options object passed to the transport, the callback value selected by
overload resolution, the request template in force, and the single
invocation the completion handler performs on the callback. -/
structure VerbCallResult (γ ω ε β : Type) where
  usedOptions : ω
  usedCallback : Option γ
  template : RequestTemplate
  invocation : CallbackInvocation ε β
deriving Repr, DecidableEq

/-- One verb-method call (src/index.js lines 151-166), for any of get, post,
put and delete.  Argument overloads are resolved, then
this.request(method, endpoint) runs - which raises a TypeError for truthy
endpoints because this.url is the constructor-installed string - and, had a
template been produced, the transport call would complete exactly once with
outcome out and invoke the handler once. -/
def verbCall {γ ω ε β : Type} (c : ApiClient) (verb : String)
    (endpoint : String) (emptyObj : ω) (second : JsArg γ ω) (third : Option γ)
    (entropy : Nat → Nat) (out : TransportResult ε β) :
    Except JsError (VerbCallResult γ ω ε β) :=
  let rc := resolveArgs emptyObj second third
  match c.requestMethod (some verb) endpoint entropy with
  | .error e => .error e
  | .ok tmpl =>
    .ok { usedOptions := rc.1, usedCallback := rc.2, template := tmpl,
          invocation := handleResponse out }

/-! ## Helper lemmas -/

theorem strData_append (a b : String) : (a ++ b).data = a.data ++ b.data := by
  cases a; cases b; rfl

theorem strAppend_assoc (a b c : String) : a ++ b ++ c = a ++ (b ++ c) := by
  cases a; cases b; cases c
  exact congrArg String.mk (List.append_assoc _ _ _)

theorem strLength_append (a b : String) :
    (a ++ b).length = a.length + b.length := by
  cases a; cases b
  simp [List.length_append]

theorem getD_mem_of_default_mem {α : Type} (l : List α) (n : Nat) (d : α)
    (hd : d ∈ l) : l.getD n d ∈ l := by
  rcases h : l[n]? with _ | a
  · simpa [List.getD, h] using hd
  · have ha : a ∈ l := by
      have := List.getElem?_eq_some.mp h
      obtain ⟨hlt, rfl⟩ := this
      exact List.getElem_mem hlt
    simpa [List.getD, h] using ha

theorem hexDigit_mem (n : Nat) : hexDigit n ∈ hexTable :=
  getD_mem_of_default_mem hexTable n '0' (by decide)

theorem word32hex_length (w : Nat) : (word32hex w).length = 8 := rfl

theorem word32hex_chars (w : Nat) :
    ∀ ch ∈ (word32hex w).data, ch ∈ hexTable := by
  intro ch h
  have h2 : ch ∈ ([28, 24, 20, 16, 12, 8, 4, 0].map
      (fun k => hexDigit ((w >>> k) % 16))) := h
  obtain ⟨k, _, rfl⟩ := List.mem_map.mp h2
  exact hexDigit_mem _

theorem sha256hex_length (s : String) : (sha256hex s).length = 64 := by
  simp [sha256hex, strLength_append, word32hex_length]

theorem sha256hex_chars (s : String) :
    ∀ ch ∈ (sha256hex s).data, ch ∈ hexTable := by
  intro ch h
  simp only [sha256hex, strData_append, List.mem_append] at h
  rcases h with ((((((h | h) | h) | h) | h) | h) | h) | h <;>
    exact word32hex_chars _ ch h

theorem randomString_length (len : Nat) (e : Nat → Nat) :
    (randomString len e).length = len := by
  simp [randomString]

theorem randomString_chars (len : Nat) (e : Nat → Nat) :
    ∀ ch ∈ (randomString len e).data, ch ∈ ALPHABET := by
  intro ch h
  simp only [randomString, String.mk, List.mem_map, List.mem_range] at h
  obtain ⟨i, _, rfl⟩ := h
  exact getD_mem_of_default_mem _ _ _ (by decide)

/-- Validation of the SHA-256 model against the standard empty-string test
vector (this digest also appears in the source documentation comments). -/
theorem sha256hex_empty_vector :
    sha256hex "" =
      "e3b0c44298fc1c149afbf4c8996fb92427ae41e4649b934ca495991b7852b855" := by
  decide

/-- Validation of the SHA-256 model against the standard abc test vector. -/
theorem sha256hex_abc_vector :
    sha256hex "abc" =
      "ba7816bf8f01cfea414140de5dae2223b00361a396177a9cb410ff61f20015ad" := by
  decide

/-! ## Claim theorems -/

/-- C1: in every generated header object the ProStore-Auth-Token field is
the lowercase-hex SHA-256 digest of nonce, a colon and the private token,
where nonce is the ProStore-Auth-Nonce field of the same object; and for a
fixed nonce (equal random draws) and the same secret the token is
deterministic, equal to the independently computed digest of the same
concatenated string. -/
theorem auth_token_is_digest_of_nonce_and_secret (c : ApiClient)
    (e e2 : Nat → Nat) :
    hdrLookup (c.headersList e) "ProStore-Auth-Token"
      = some (sha256hex
          ((hdrLookup (c.headersList e) "ProStore-Auth-Nonce").getD ""
            ++ ":" ++ c.privateToken))
    ∧ (randomString 32 e = randomString 32 e2 →
        hdrLookup (c.headersList e) "ProStore-Auth-Token"
          = hdrLookup (c.headersList e2) "ProStore-Auth-Token") := by
  constructor
  · rfl
  · intro h
    show some (sha256hex (randomString 32 e ++ ":" ++ c.privateToken))
      = some (sha256hex (randomString 32 e2 ++ ":" ++ c.privateToken))
    rw [h]

/-- C1 witness: the theorem instantiated at a concrete client and a concrete
entropy stream, the fixed-nonce hypothesis discharged by reflexivity. -/
theorem auth_token_digest_witness :
    hdrLookup ((ApiClient.ofOptions
        ⟨"https://example.store", "54b4c1d3bab9e22843c99ea4", "secret"⟩).headersList
          (fun _ => 0)) "ProStore-Auth-Token"
      = some (sha256hex
          ((hdrLookup ((ApiClient.ofOptions
              ⟨"https://example.store", "54b4c1d3bab9e22843c99ea4", "secret"⟩).headersList
                (fun _ => 0)) "ProStore-Auth-Nonce").getD ""
            ++ ":" ++ "secret"))
    ∧ hdrLookup ((ApiClient.ofOptions
        ⟨"https://example.store", "54b4c1d3bab9e22843c99ea4", "secret"⟩).headersList
          (fun _ => 0)) "ProStore-Auth-Token"
      = hdrLookup ((ApiClient.ofOptions
          ⟨"https://example.store", "54b4c1d3bab9e22843c99ea4", "secret"⟩).headersList
            (fun _ => 0)) "ProStore-Auth-Token" :=
  ⟨(auth_token_is_digest_of_nonce_and_secret
      (ApiClient.ofOptions
        ⟨"https://example.store", "54b4c1d3bab9e22843c99ea4", "secret"⟩)
      (fun _ => 0) (fun _ => 0)).1,
   (auth_token_is_digest_of_nonce_and_secret
      (ApiClient.ofOptions
        ⟨"https://example.store", "54b4c1d3bab9e22843c99ea4", "secret"⟩)
      (fun _ => 0) (fun _ => 0)).2 rfl⟩

/-- C2: every generated header object has exactly three fields, named
exactly ProStore-Auth-UserId, ProStore-Auth-Nonce and ProStore-Auth-Token,
in that order, and the ProStore-Auth-UserId field is the configured user
identifier verbatim. -/
theorem headers_have_exactly_three_fields (c : ApiClient) (e : Nat → Nat) :
    (c.headersList e).length = 3
    ∧ (c.headersList e).map Prod.fst
        = ["ProStore-Auth-UserId", "ProStore-Auth-Nonce", "ProStore-Auth-Token"]
    ∧ hdrLookup (c.headersList e) "ProStore-Auth-UserId" = some c.userId :=
  ⟨rfl, rfl, rfl⟩

/-- C3 counterexample: the claim quantifies over every non-empty endpoint,
but the builder removes at most one leading slash, so the endpoint
//admin/products leaves two slashes between the api segment and the
endpoint: the produced URL is not the claimed slash-normalized shape. -/
theorem url_shape_counterexample :
    ApiClient.urlMethod (ApiClient.ofOptions ⟨"https://x.test", "u", "t"⟩)
        "//admin/products"
      = "https://x.test/api//admin/products"
    ∧ ("https://x.test/api//admin/products" : String)
        ≠ "https://x.test/api/admin/products" :=
  ⟨rfl, by decide⟩

/-- C3 amended: the constructed URL is the base url with every trailing
slash removed, then /api/, then the endpoint with at most one leading slash
removed; hence the one-slash-per-separator shape holds whenever the
endpoint carries at most one leading slash, and both cited examples yield
https://x.test/api/admin/products. -/
theorem url_shape_amended :
    (∀ (o : ClientOptions) (ep : String),
        ApiClient.urlMethod (ApiClient.ofOptions o) ep
          = stripTrailingSlashes o.url ++ "/api/" ++ dropOneLeadingSlash ep)
    ∧ ApiClient.urlMethod (ApiClient.ofOptions ⟨"https://x.test/", "u", "t"⟩)
        "/admin/products" = "https://x.test/api/admin/products"
    ∧ ApiClient.urlMethod (ApiClient.ofOptions ⟨"https://x.test", "u", "t"⟩)
        "admin/products" = "https://x.test/api/admin/products" := by
  refine ⟨fun o ep => ?_, rfl, rfl⟩
  show stripTrailingSlashes o.url ++ "/api" ++ "/" ++ dropOneLeadingSlash ep
    = stripTrailingSlashes o.url ++ "/api/" ++ dropOneLeadingSlash ep
  rw [strAppend_assoc (stripTrailingSlashes o.url) "/api" "/",
    show ("/api" : String) ++ "/" = "/api/" from by decide]

/-- C4: the claim fails on the code: request with any verb and the non-empty
endpoint echo raises a TypeError, because the property read this.url yields
the constructor-installed base-url string rather than the prototype method,
so no request descriptor with lowercased verb, built URL, fresh headers and
json defaults is ever returned. -/
theorem request_method_raises_type_error :
    (ApiClient.ofOptions
        ⟨"https://example.store", "54b4c1d3bab9e22843c99ea4", "secret"⟩).requestMethod
      (some "GET") "echo" (fun _ => 0)
      = .error (.typeError "this.url is not a function") := rfl

/-- C5: the claim fails on the code: a verb-method call with a valid
endpoint, options and callback raises a TypeError while building the
request template, before the transport is consulted (the result is the same
for every transport outcome), so the callback is invoked zero times rather
than exactly once. -/
theorem verb_call_raises_type_error (out : TransportResult Nat Nat) :
    verbCall (γ := Nat) (ω := List (String × String))
        (ApiClient.ofOptions
          ⟨"https://example.store", "54b4c1d3bab9e22843c99ea4", "secret"⟩)
        "get" "echo" [] (.obj []) (some 7) (fun _ => 0) out
      = .error (.typeError "this.url is not a function") := rfl

/-- C6: the constructor stores the (trailing-slash-stripped) configured
base-url string in the own property url, which shadows the prototype method
url in JavaScript property lookup; consequently request - and hence every
verb method - raises a TypeError for every non-empty endpoint instead of
producing a request descriptor. -/
theorem own_url_string_shadows_prototype_method (o : ClientOptions)
    (m : Option String) (ep : String) (e : Nat → Nat) :
    (ApiClient.ofOptions o).url = stripTrailingSlashes o.url
    ∧ urlProp (ApiClient.ofOptions o)
        = .stringValue (stripTrailingSlashes o.url)
    ∧ (ep ≠ "" → (ApiClient.ofOptions o).requestMethod m ep e
        = .error (.typeError "this.url is not a function")) := by
  refine ⟨rfl, rfl, fun h => ?_⟩
  simp [ApiClient.requestMethod, callUrlProp, urlProp, urlPropOwn, h,
    Except.map]

/-- C6 witness: the theorem instantiated at a concrete client, verb and
endpoint, with the non-empty-endpoint hypothesis discharged concretely. -/
theorem own_url_string_shadow_witness :
    (ApiClient.ofOptions ⟨"https://example.store/", "u", "t"⟩).url
        = "https://example.store"
    ∧ (ApiClient.ofOptions ⟨"https://example.store/", "u", "t"⟩).requestMethod
        (some "post") "admin/products" (fun _ => 1)
        = .error (.typeError "this.url is not a function") :=
  ⟨((own_url_string_shadows_prototype_method
      ⟨"https://example.store/", "u", "t"⟩ (some "post") "admin/products"
      (fun _ => 1)).1).trans (by decide),
   (own_url_string_shadows_prototype_method
      ⟨"https://example.store/", "u", "t"⟩ (some "post") "admin/products"
      (fun _ => 1)).2.2 (by decide)⟩

/-- C7: the completion handler installed by the verb methods maps a
completed round trip with status 400 or greater to a single callback
invocation carrying a fresh error whose message contains the decimal status
code, with the response body discarded, and a round trip with status below
400 to the invocation cb(null, parsedBody). -/
theorem handler_status_dispatch {ε β : Type} (st : Nat) (body : β) :
    (400 ≤ st →
      handleResponse (ε := ε) (.completed st body)
          = .withErr (.serverError ("Server returned " ++ toString st))
      ∧ (toString st).data <:+: ("Server returned " ++ toString st).data)
    ∧ (st < 400 →
      handleResponse (ε := ε) (.completed st body) = .withData body) := by
  constructor
  · intro h
    refine ⟨by simp [handleResponse, h], ?_⟩
    rw [strData_append]
    exact (List.suffix_append _ _).isInfix
  · intro h
    simp [handleResponse, Nat.not_le.mpr h]

/-- C7 witness: the handler at the concrete statuses 404 and 200. -/
theorem handler_status_dispatch_witness :
    handleResponse (ε := Nat) (β := Nat) (.completed 404 0)
        = .withErr (.serverError "Server returned 404")
    ∧ handleResponse (ε := Nat) (β := Nat) (.completed 200 7)
        = .withData 7 :=
  ⟨(((handler_status_dispatch 404 (0 : Nat)).1 (by decide)).1).trans
      (by decide),
   (handler_status_dispatch 200 (7 : Nat)).2 (by decide)⟩

/-- C8: on a transport-level failure the completion handler invokes the
callback with exactly the transport error value, unmodified - the withErr
invocation carries no second argument and no response processing occurs. -/
theorem transport_error_passes_through {ε β : Type} (err : ε) :
    handleResponse (β := β) (.failed err) = .withErr (.transport err) := rfl

/-- C9: for every client built from non-empty userId and privateToken, the
generated header object carries a nonce of exactly 32 characters drawn from
the fixed alphabet of uppercase letters, lowercase letters and digits, and
a token that is a 64-character string of lowercase hexadecimal digits. -/
theorem nonce_and_token_well_formed (c : ApiClient) (e : Nat → Nat)
    (hu : c.userId ≠ "") (hp : c.privateToken ≠ "") :
    ∃ nonce token : String,
      hdrLookup (c.headersList e) "ProStore-Auth-Nonce" = some nonce
      ∧ hdrLookup (c.headersList e) "ProStore-Auth-Token" = some token
      ∧ nonce.length = 32
      ∧ (∀ ch ∈ nonce.data, ch ∈ ALPHABET)
      ∧ token.length = 64
      ∧ (∀ ch ∈ token.data, ch ∈ hexTable) := by
  refine ⟨randomString 32 e,
    sha256hex (randomString 32 e ++ ":" ++ c.privateToken),
    rfl, rfl, randomString_length 32 e, randomString_chars 32 e,
    sha256hex_length _, sha256hex_chars _⟩

/-- C9 witness: the theorem instantiated at a concrete client, the
non-emptiness hypotheses discharged concretely. -/
theorem nonce_and_token_well_formed_witness :
    ∃ nonce token : String,
      hdrLookup ((ApiClient.ofOptions
          ⟨"https://example.store", "54b4c1d3bab9e22843c99ea4", "secret"⟩).headersList
            (fun _ => 0)) "ProStore-Auth-Nonce" = some nonce
      ∧ hdrLookup ((ApiClient.ofOptions
          ⟨"https://example.store", "54b4c1d3bab9e22843c99ea4", "secret"⟩).headersList
            (fun _ => 0)) "ProStore-Auth-Token" = some token
      ∧ nonce.length = 32
      ∧ (∀ ch ∈ nonce.data, ch ∈ ALPHABET)
      ∧ token.length = 64
      ∧ (∀ ch ∈ token.data, ch ∈ hexTable) :=
  nonce_and_token_well_formed
    (ApiClient.ofOptions
      ⟨"https://example.store", "54b4c1d3bab9e22843c99ea4", "secret"⟩)
    (fun _ => 0) (by decide) (by decide)

/-- C10: invoking a verb method with the callback in the options position
and no third argument behaves identically - same resolved options, same
selected callback, same template, same callback invocation, same raised
error if any - to invoking it with an explicit empty options object and the
callback third. -/
theorem verb_overload_equivalence {γ ω ε β : Type} (c : ApiClient)
    (verb ep : String) (emptyObj : ω) (f : γ) (e : Nat → Nat)
    (out : TransportResult ε β) :
    verbCall c verb ep emptyObj (.func f) none e out
      = verbCall c verb ep emptyObj (.obj emptyObj) (some f) e out := rfl

end ProStore
